import Mathlib

/-!
Verification of the helpdesk ticketing application's SLA engine and ticket
lifecycle against its specification.

Timestamps are embedded as natural numbers counting seconds since
0001-01-01 00:00 (a Monday in the proleptic Gregorian calendar, which is
the minimum of the source language's datetime range), so `weekday t =
t / 86400 % 7` agrees with the source's `datetime.weekday()` convention
(0 = Monday) and `hourOfDay t = t / 3600 % 24` agrees with `datetime.hour`.
Fractional hour amounts (the source's floats) are embedded as rationals.
-/

namespace Helpdesk

/-- From src/config.py: WORK_HOURS_START = 9. -/
def WORK_HOURS_START : Nat := 9

/-- From src/config.py: WORK_HOURS_END = 18. -/
def WORK_HOURS_END : Nat := 18

/-- From src/config.py: WORK_DAYS = [0, 1, 2, 3, 4] (Mon-Fri, 0 = Monday). -/
def WORK_DAYS : List Nat := [0, 1, 2, 3, 4]

/-- From src/config.py: SLA_LIMITS, hours per priority. -/
def SLA_LIMITS : List (String × Nat) :=
  [("critical", 2), ("high", 8), ("medium", 24), ("low", 72)]

/-- Weekday of a timestamp (seconds since a Monday 00:00): 0 = Monday. -/
def weekday (t : Nat) : Nat := t / 86400 % 7

/-- Hour-of-day of a timestamp. -/
def hourOfDay (t : Nat) : Nat := t / 3600 % 24

/-- From src/services/sla_service.py, `SLAService._is_working_hour`:
weekday must be < 5 (Saturday = 5, Sunday = 6 excluded) and the hour must lie
in [WORK_HOURS_START, WORK_HOURS_END). -/
def is_working_hour (dt : Nat) : Bool :=
  if 5 ≤ weekday dt then false
  else if hourOfDay dt < WORK_HOURS_START ∨ WORK_HOURS_END ≤ hourOfDay dt then false
  else true

/-- The number of whole hours to wait, strictly after instant `t`, until the
next working hour, packaged with the facts the termination argument for the
due-date loop needs: it is at most 176 (there is a working hour in every
roughly-one-week window of hour steps) and no earlier hour step works. -/
def gapToWorkSpec (t : Nat) :
    {d : Nat // is_working_hour (t + 3600 * (d + 1)) = true ∧ d ≤ 176 ∧
      ∀ m, m < d → is_working_hour (t + 3600 * (m + 1)) = false} :=
  have hw : is_working_hour (t + 3600 * ((176 - t / 3600 % 168) + 1)) = true := by
    have h1 : (t + 3600 * ((176 - t / 3600 % 168) + 1)) / 3600
        = t / 3600 + ((176 - t / 3600 % 168) + 1) :=
      Nat.add_mul_div_left t _ (by norm_num)
    have h2 : (t + 3600 * ((176 - t / 3600 % 168) + 1)) / 86400
        = (t + 3600 * ((176 - t / 3600 % 168) + 1)) / 3600 / 24 := by
      rw [Nat.div_div_eq_div_mul]
    have hk24 : (t / 3600 + ((176 - t / 3600 % 168) + 1)) % 24 = 9 := by omega
    have hk7 : (t / 3600 + ((176 - t / 3600 % 168) + 1)) / 24 % 7 = 0 := by omega
    unfold is_working_hour weekday hourOfDay WORK_HOURS_START WORK_HOURS_END
    rw [h2, h1, hk24, hk7]
    norm_num
  have hex : ∃ d, is_working_hour (t + 3600 * (d + 1)) = true := ⟨_, hw⟩
  ⟨Nat.find hex, Nat.find_spec hex,
    le_trans (Nat.find_le hw) (by omega),
    fun m hm => by
      have h := Nat.find_min hex hm
      revert h
      cases is_working_hour (t + 3600 * (m + 1)) <;> simp⟩

/-- The hour-stepping loop of `SLAService._calculate_work_hours`
(src/services/sla_service.py): walk from `current` to `endT` in one-hour
steps, counting the steps whose instant is a working hour. -/
def calcWorkAux (endT current total : Nat) : Nat :=
  if h : current < endT then
    calcWorkAux endT (current + 3600) (if is_working_hour current then total + 1 else total)
  else total
termination_by endT - current
decreasing_by omega

/-- From src/services/sla_service.py, `SLAService._calculate_work_hours`:
returns 0 when `start >= end`, otherwise runs the hour-stepping loop.
The count is integral in the source (floats incremented by 1.0), so it is
embedded as a natural number. -/
def calculateWorkHours (start endT : Nat) : Nat :=
  if endT ≤ start then 0 else calcWorkAux endT start 0

/-- The while-loop of `SLAService.calculate_due_date`
(src/services/sla_service.py): while the remaining-hours counter is
positive, advance one hour and decrement the counter on working hours.
The counter is an integer as in the source (a non-positive value exits
immediately). -/
def dueDateLoop (current : Nat) (remaining : Int) : Nat :=
  if hr : remaining ≤ 0 then current
  else if hw : is_working_hour (current + 3600) then
    dueDateLoop (current + 3600) (remaining - 1)
  else
    dueDateLoop (current + 3600) remaining
termination_by remaining.toNat * 177 + (gapToWorkSpec current).1
decreasing_by
  · have h176 := (gapToWorkSpec (current + 3600)).2.2.1
    omega
  · have hfalse : is_working_hour (current + 3600) = false := by
      revert hw
      cases is_working_hour (current + 3600) <;> simp
    have hpos : 1 ≤ (gapToWorkSpec current).1 := by
      rcases Nat.eq_zero_or_pos (gapToWorkSpec current).1 with h0 | h1
      · have hwork := (gapToWorkSpec current).2.1
        rw [h0] at hwork
        norm_num at hwork
        rw [hfalse] at hwork
        exact absurd hwork (by simp)
      · exact h1
    have hlt : (gapToWorkSpec (current + 3600)).1 < (gapToWorkSpec current).1 := by
      by_contra hge
      push_neg at hge
      have hmin := (gapToWorkSpec (current + 3600)).2.2.2
          ((gapToWorkSpec current).1 - 1) (by omega)
      have harith : current + 3600 + 3600 * (((gapToWorkSpec current).1 - 1) + 1)
          = current + 3600 * ((gapToWorkSpec current).1 + 1) := by omega
      rw [harith] at hmin
      have hwork := (gapToWorkSpec current).2.1
      rw [hmin] at hwork
      exact absurd hwork (by simp)
    omega

/-- A fuel-indexed twin of `dueDateLoop`, used to express that the source's
while-loop reaches its exit after finitely many one-hour steps: `none` means
the fuel ran out before the loop exited. -/
def dueDateFuel : Nat → Nat → Int → Option Nat
  | 0, _, _ => none
  | fuel + 1, current, remaining =>
    if remaining ≤ 0 then some current
    else if is_working_hour (current + 3600) then
      dueDateFuel fuel (current + 3600) (remaining - 1)
    else
      dueDateFuel fuel (current + 3600) remaining

/-- From src/services/sla_service.py, `SLAService.calculate_due_date`:
critical requests get `start + sla_hours` directly; the rest step through
the business calendar. -/
def calculate_due_date (start_date : Nat) (sla_hours : Nat) (critical : Bool) : Nat :=
  if critical then start_date + 3600 * sla_hours
  else dueDateLoop start_date (sla_hours : Int)

/-- From src/services/sla_service.py, `SLAService._calculate_elapsed_hours`:
0 when `start >= end`; raw wall-clock hours for critical requests; the
business-hours count otherwise. -/
def calculate_elapsed_hours (start endT : Nat) (critical : Bool) : ℚ :=
  if endT ≤ start then 0
  else if critical then ((endT : ℚ) - (start : ℚ)) / 3600
  else (calculateWorkHours start endT : ℚ)

/-- From src/models/status.py. Display-only fields (color, order, icon,
description, timestamps) are omitted; the fields consulted by the modeled
logic are kept. -/
structure Status where
  id : Option Nat
  name : String
  code : String
  is_initial : Bool
  is_final : Bool
  requires_comment : Bool
  allowed_roles : Option (List String)
  next_statuses : Option (List Nat)
deriving DecidableEq

/-- From src/models/status.py, `Status.can_transition_to`: an absent or empty
`next_statuses` list permits every transition (`if not self.next_statuses:
return True`); otherwise membership decides. -/
def Status.can_transition_to (s : Status) (status_id : Nat) : Bool :=
  match s.next_statuses with
  | none => true
  | some l => if l.isEmpty then true else l.contains status_id

/-- From src/models/status.py, `Status.is_allowed_for_role`: absent or empty
`allowed_roles` permits every role. -/
def Status.is_allowed_for_role (s : Status) (role : String) : Bool :=
  match s.allowed_roles with
  | none => true
  | some l => if l.isEmpty then true else l.contains role

/-- From src/models/user.py; only the fields change_status consults. -/
structure User where
  id : Option Nat
  role : String
deriving DecidableEq

/-- From src/models/request.py; description/estimated_hours/satisfaction
fields are omitted as no modeled operation consults them. -/
structure Request where
  id : Option Nat
  title : String
  requester_id : Option Nat
  assignee_id : Option Nat
  category_id : Option Nat
  status_id : Option Nat
  priority : String
  created_at : Option Nat
  updated_at : Option Nat
  resolved_at : Option Nat
  closed_at : Option Nat
  sla_due_date : Option Nat
  actual_hours : Option ℚ
  is_deleted : Bool
deriving DecidableEq

/-- From src/models/request.py, `Request.is_critical`. -/
def Request.is_critical (r : Request) : Bool := r.priority == "critical"

/-- From src/models/request.py, `Request.is_finished`:
`self.status_id in [3, 4, 5]` (an unset status id is in particular not
finished). -/
def Request.is_finished (r : Request) : Bool :=
  match r.status_id with
  | some i => [3, 4, 5].contains i
  | none => false

/-- From src/models/request.py, `Request.calculate_resolution_time`:
raw wall-clock hours between creation and resolution, `none` when either
timestamp is missing. -/
def Request.calculate_resolution_time (r : Request) : Option ℚ :=
  match r.resolved_at, r.created_at with
  | some res, some cre => some (((res : ℚ) - (cre : ℚ)) / 3600)
  | _, _ => none

/-- From src/models/request_history.py; the metadata field is omitted. -/
structure RequestHistory where
  id : Option Nat
  request_id : Option Nat
  action : String
  old_value : Option String
  new_value : Option String
  comment : Option String
  changed_by : Option Nat
  changed_at : Option Nat
  field_name : Option String
deriving DecidableEq

/-- From src/models/request_history.py, `RequestHistory.create_status_change`.
The source's `str(old_status)` renders an absent id as the text "None". -/
def RequestHistory.create_status_change (request_id : Nat) (user_id : Nat)
    (old_status : Option Nat) (new_status : Nat) (comment : Option String)
    (now : Nat) : RequestHistory :=
  { id := none
    request_id := some request_id
    action := "status_change"
    old_value := some (match old_status with | some i => toString i | none => "None")
    new_value := some (toString new_status)
    comment := comment
    changed_by := some user_id
    changed_at := some now
    field_name := some "status_id" }

/-- From src/services/sla_service.py, `SLAService._get_sla_limit`:
`Config.SLA_LIMITS.get(request.priority, 24)`. -/
def get_sla_limit (r : Request) : Nat :=
  match SLA_LIMITS.lookup r.priority with
  | some v => v
  | none => 24

/-- From src/services/sla_service.py, `SLAService._get_status_color`. -/
def get_status_color (percentage : ℚ) (compliant : Bool) (priority : String) : String :=
  if !compliant then "#e74c3c"
  else if priority == "critical" then
    if percentage < 30 then "#2ecc71"
    else if percentage < 60 then "#f39c12"
    else "#e67e22"
  else
    if percentage < 50 then "#2ecc71"
    else if percentage < 80 then "#f39c12"
    else "#e67e22"

/-- The source's `round(x, 2)` (floats embedded as exact rationals):
round half to even at the integer scale. -/
def roundHalfEven (x : ℚ) : Int :=
  if x - Int.floor x < 1 / 2 then Int.floor x
  else if (1 : ℚ) / 2 < x - Int.floor x then Int.floor x + 1
  else if Int.floor x % 2 = 0 then Int.floor x else Int.floor x + 1

/-- `round(x, 2)` of the source, on rationals. -/
def round2 (x : ℚ) : ℚ := (roundHalfEven (x * 100) : ℚ) / 100

/-- The dictionary returned by `SLAService.calculate_sla`. -/
structure SLAReport where
  is_compliant : Bool
  elapsed_hours : ℚ
  sla_limit : Nat
  percentage : ℚ
  color : String
  remaining_hours : ℚ
  overrun_hours : ℚ
  status_text : String
  due_date : Option Nat
deriving DecidableEq

/-- The fallback dictionary of `SLAService.calculate_sla`'s except-branch
(src/services/sla_service.py). -/
def slaFallbackReport : SLAReport :=
  { is_compliant := true
    elapsed_hours := 0
    sla_limit := 24
    percentage := 0
    color := "#95a5a6"
    remaining_hours := 24
    overrun_hours := 0
    status_text := "Ошибка расчета"
    due_date := none }

/-- The try-branch of `SLAService.calculate_sla`: the one operation that can
raise is the `start >= end` comparison inside `_calculate_elapsed_hours` when
`created_at` is absent (comparing None with a datetime), modeled as the error
case. All later steps are total. -/
def calculate_sla_body (r : Request) (now : Nat) : Except String SLAReport :=
  let sla_limit := get_sla_limit r
  let current_time := match r.resolved_at with | some t => t | none => now
  match r.created_at with
  | none => .error "TypeError: cannot compare None with datetime"
  | some created =>
    let elapsed := calculate_elapsed_hours created current_time r.is_critical
    let compliant : Bool := decide (elapsed ≤ (sla_limit : ℚ))
    let percentage : ℚ :=
      if 0 < sla_limit then min 100 (elapsed / (sla_limit : ℚ) * 100) else 0
    let remaining : ℚ := max 0 ((sla_limit : ℚ) - elapsed)
    let overrun : ℚ := if !compliant then max 0 (elapsed - (sla_limit : ℚ)) else 0
    .ok { is_compliant := compliant
          elapsed_hours := round2 elapsed
          sla_limit := sla_limit
          percentage := round2 percentage
          color := get_status_color percentage compliant r.priority
          remaining_hours := round2 remaining
          overrun_hours := round2 overrun
          status_text := if compliant then "В SLA" else "Нарушено SLA"
          due_date := some (calculate_due_date created sla_limit r.is_critical) }

/-- From src/services/sla_service.py, `SLAService.calculate_sla`: the
try-branch, with the except-branch degrading to the fallback report. -/
def calculate_sla (r : Request) (now : Nat) : SLAReport :=
  match calculate_sla_body r now with
  | .ok rep => rep
  | .error _ => slaFallbackReport

/-- From src/services/sla_service.py, `SLAService.check_sla_compliance`:
finished requests with both timestamps are measured creation-to-resolution;
finished requests missing either timestamp read compliant; active requests
delegate to the live report. -/
def check_sla_compliance (r : Request) (now : Nat) : Bool :=
  if r.is_finished then
    match r.resolved_at, r.created_at with
    | some res, some cre =>
      decide (calculate_elapsed_hours cre res r.is_critical ≤ (get_sla_limit r : ℚ))
    | _, _ => true
  else
    (calculate_sla r now).is_compliant

/-- The repositories `RequestService.change_status` reads, as lookup maps. -/
structure Env where
  requests : Nat → Option Request
  statuses : Nat → Option Status
  users : Nat → Option User

/-- The mutation block of `RequestService.change_status`
(src/services/request_service.py): set the new status and `updated_at`;
when the new status exists and is final, id 3 stamps `resolved_at` and
`actual_hours` via `calculate_resolution_time`, id 4 stamps `closed_at`. -/
def applyStatusChange (req : Request) (new_status_id : Nat)
    (newStatus : Option Status) (now : Nat) : Request :=
  let req1 := { req with status_id := some new_status_id, updated_at := some now }
  match newStatus with
  | some ns =>
    if ns.is_final then
      if new_status_id = 3 then
        let r2 := { req1 with resolved_at := some now }
        { r2 with actual_hours := r2.calculate_resolution_time }
      else if new_status_id = 4 then { req1 with closed_at := some now }
      else req1
    else req1
  | none => req1

/-- From src/services/request_service.py, `RequestService.change_status`.
The persistence write is modeled as always succeeding, the several
`datetime.now()` calls as a single `now`, and raised ValueError /
AttributeError as the error case. On success the updated request and the
created history record are returned. Note the guard consults only the old
status's `next_statuses` allow-list and the new status's `allowed_roles`;
`is_final` and `requires_comment` are consulted nowhere in the guard. -/
def change_status (env : Env) (request_id : Nat) (new_status_id : Nat)
    (comment : Option String) (changed_by : Nat) (now : Nat) :
    Except String (Request × RequestHistory) :=
  match env.requests request_id with
  | none => .error "ValueError: request not found"
  | some req =>
    let old_status_id := req.status_id
    let old_status := match old_status_id with | some i => env.statuses i | none => none
    let transition_ok : Bool :=
      match old_status with
      | some s => s.can_transition_to new_status_id
      | none => true
    if !transition_ok then .error "ValueError: cannot leave current status"
    else
      match env.statuses new_status_id with
      | some ns =>
        (match env.users changed_by with
         | none => .error "AttributeError: user not found"
         | some u =>
           if !ns.is_allowed_for_role u.role then
             .error "ValueError: status not allowed for role"
           else
             .ok (applyStatusChange req new_status_id (some ns) now,
                  RequestHistory.create_status_change request_id changed_by
                    old_status_id new_status_id comment now))
      | none =>
        .ok (applyStatusChange req new_status_id none now,
             RequestHistory.create_status_change request_id changed_by
               old_status_id new_status_id comment now)

/-- Whether a lifecycle call succeeded (did not raise). -/
def resultOk {ε α : Type} : Except ε α → Bool
  | .ok _ => true
  | .error _ => false

/-- A row of the request_history table. `changed_at` is always populated:
`RequestHistoryRepository.create` inserts `history.changed_at or
datetime.now()`. Payload columns other than the action are irrelevant to the
ordering claims and omitted. -/
structure HistoryRow where
  request_id : Nat
  action : String
  changed_at : Nat
deriving DecidableEq

/-- SQL `ORDER BY changed_at DESC`, modeled as a sort by descending
timestamp. -/
def orderByChangedAtDesc (rows : List HistoryRow) : List HistoryRow :=
  rows.insertionSort (fun a b => b.changed_at ≤ a.changed_at)

/-- From src/repositories/request_history_repository.py,
`RequestHistoryRepository.find_by_request`, whose query is
SELECT * FROM request_history WHERE request_id = ? ORDER BY changed_at DESC. -/
def find_by_request (db : List HistoryRow) (request_id : Nat) : List HistoryRow :=
  orderByChangedAtDesc (db.filter (fun r => r.request_id == request_id))

/-- The rows appear oldest first (ascending `changed_at`). -/
def ascendingByChangedAt : List HistoryRow → Bool
  | [] => true
  | [_] => true
  | a :: b :: rest =>
    decide (a.changed_at ≤ b.changed_at) && ascendingByChangedAt (b :: rest)

/-- Modelled from the spec: "Returns true iff the instant's weekday is in
`working_weekdays` AND its hour-of-day is in `[work_start_hour,
work_end_hour)`", over the configured WORK_DAYS and working hours. -/
def is_working_instant_spec (t : Nat) : Bool :=
  WORK_DAYS.contains (weekday t) &&
    (decide (WORK_HOURS_START ≤ hourOfDay t) && decide (hourOfDay t < WORK_HOURS_END))

/-- The number of hour-step instants `start + 3600 * k` that fall before
`endT` and are working hours. -/
def workInstantCount (start endT : Nat) : Nat :=
  ((List.range ((endT - start + 3599) / 3600)).filter
    (fun k => is_working_hour (start + 3600 * k))).length

/-- Sample status catalog mirroring the five standard statuses
(src/models/status.py STANDARD_STATUSES): 3, 4, 5 are final; no
`next_statuses` or `allowed_roles` configured. -/
def mkStatus (i : Nat) (cd : String) (fin : Bool) : Status :=
  { id := some i
    name := cd
    code := cd
    is_initial := i == 1
    is_final := fin
    requires_comment := false
    allowed_roles := none
    next_statuses := none }

/-- The five standard statuses, keyed by id. -/
def baseStatuses : Nat → Option Status := fun i =>
  if i = 1 then some (mkStatus 1 "new" false)
  else if i = 2 then some (mkStatus 2 "in_progress" false)
  else if i = 3 then some (mkStatus 3 "resolved" true)
  else if i = 4 then some (mkStatus 4 "closed" true)
  else if i = 5 then some (mkStatus 5 "rejected" true)
  else none

/-- A sample executor. -/
def sampleUser : User := { id := some 7, role := "executor" }

/-- A sample request builder. -/
def mkRequest (sid : Option Nat) (prio : String) (cre res : Option Nat) : Request :=
  { id := some 10
    title := "sample ticket"
    requester_id := some 1
    assignee_id := none
    category_id := some 1
    status_id := sid
    priority := prio
    created_at := cre
    updated_at := cre
    resolved_at := res
    closed_at := none
    sla_due_date := none
    actual_hours := none
    is_deleted := false }

/-- Environment for the terminal-status scenario: request 10 sits in the
final status 3, whose `next_statuses` is absent. -/
def c2Env : Env :=
  { requests := fun i => if i = 10 then some (mkRequest (some 3) "medium" (some 0) none) else none
    statuses := baseStatuses
    users := fun i => if i = 7 then some sampleUser else none }

/-- Environment where the final status 3 has a nonempty `next_statuses`
allow-list ([4]) that excludes status 2. -/
def c2AmEnv : Env :=
  { requests := fun i => if i = 10 then some (mkRequest (some 3) "medium" (some 0) none) else none
    statuses := fun i =>
      if i = 3 then some { mkStatus 3 "resolved" true with next_statuses := some [4] }
      else baseStatuses i
    users := fun i => if i = 7 then some sampleUser else none }

/-- Environment for the resolution-stamp scenario: request 10 is in progress,
created Monday 08:00. -/
def c5Env : Env :=
  { requests := fun i => if i = 10 then some (mkRequest (some 2) "medium" (some 28800) none) else none
    statuses := baseStatuses
    users := fun i => if i = 7 then some sampleUser else none }

/-- Status catalog where the in-progress status additionally demands a
comment on entry. -/
def c6Statuses : Nat → Option Status := fun i =>
  if i = 2 then some { mkStatus 2 "in_progress" false with requires_comment := true }
  else baseStatuses i

/-- Environment for the required-comment scenario: request 10 is new, the
target status 2 has `requires_comment` set. -/
def c6Env : Env :=
  { requests := fun i => if i = 10 then some (mkRequest (some 1) "medium" (some 0) none) else none
    statuses := c6Statuses
    users := fun i => if i = 7 then some sampleUser else none }

/-- A two-row history table for ticket 1: a creation at time 0 and a status
change at time 100. -/
def c9Db : List HistoryRow :=
  [{ request_id := 1, action := "create", changed_at := 0 },
   { request_id := 1, action := "status_change", changed_at := 100 }]

theorem dueDateLoop_ge (c : Nat) (r : Int) : c ≤ dueDateLoop c r := by
  induction c, r using dueDateLoop.induct with
  | case1 c r h => rw [dueDateLoop]; simp [h]
  | case2 c r h hw ih => rw [dueDateLoop]; simp [h, hw]; omega
  | case3 c r h hw ih => rw [dueDateLoop]; simp [h, hw]; omega

theorem dueDateLoop_ge_step (c : Nat) (r : Int) (hr : 0 < r) :
    c + 3600 ≤ dueDateLoop c r := by
  rw [dueDateLoop]
  have h : ¬ r ≤ 0 := by omega
  by_cases hw : is_working_hour (c + 3600) = true
  · simp [h, hw]; exact dueDateLoop_ge (c + 3600) (r - 1)
  · simp [h, hw]; exact dueDateLoop_ge (c + 3600) r

theorem calcWorkAux_stop (e c a : Nat) (hc : ¬ c < e) : calcWorkAux e c a = a := by
  rw [calcWorkAux]
  simp [hc]

theorem calcWorkAux_acc :
    ∀ (n e c a : Nat), e - c ≤ n → calcWorkAux e c a = a + calcWorkAux e c 0 := by
  intro n
  induction n with
  | zero =>
    intro e c a h
    have hc : ¬ c < e := by omega
    rw [calcWorkAux_stop e c a hc, calcWorkAux_stop e c 0 hc]
    omega
  | succ n ih =>
    intro e c a h
    by_cases hc : c < e
    · have hstep : ∀ b : Nat, calcWorkAux e c b
          = calcWorkAux e (c + 3600) (if is_working_hour c then b + 1 else b) := by
        intro b
        rw [calcWorkAux]
        simp [hc]
      rw [hstep a, hstep 0]
      rw [ih e (c + 3600) (if is_working_hour c then a + 1 else a) (by omega)]
      rw [ih e (c + 3600) (if is_working_hour c then 0 + 1 else 0) (by omega)]
      cases is_working_hour c <;> (simp; try omega)
    · rw [calcWorkAux_stop e c a hc, calcWorkAux_stop e c 0 hc]
      omega

theorem calculateWorkHours_of_le (s e : Nat) (h : e ≤ s) :
    calculateWorkHours s e = 0 := by
  unfold calculateWorkHours
  simp [h]

theorem calculateWorkHours_step (s e : Nat) (h : s < e) :
    calculateWorkHours s e
      = (if is_working_hour s then 1 else 0) + calculateWorkHours (s + 3600) e := by
  unfold calculateWorkHours
  have h1 : ¬ e ≤ s := by omega
  simp only [h1, if_false]
  rw [calcWorkAux]
  simp only [h, dif_pos]
  rw [calcWorkAux_acc (e - (s + 3600)) e (s + 3600) _ le_rfl]
  by_cases he : e ≤ s + 3600
  · have hx : ¬ s + 3600 < e := by omega
    rw [calcWorkAux_stop e (s + 3600) 0 hx]
    simp only [he, if_true]
  · simp only [he, if_false]

theorem calculateWorkHours_eq_count :
    ∀ (n s e : Nat), e - s ≤ n → calculateWorkHours s e = workInstantCount s e := by
  intro n
  induction n with
  | zero =>
    intro s e h
    have he : e ≤ s := by omega
    rw [calculateWorkHours_of_le s e he]
    unfold workInstantCount
    have hz : (e - s + 3599) / 3600 = 0 := by omega
    rw [hz]
    simp
  | succ n ih =>
    intro s e h
    by_cases hse : s < e
    · rw [calculateWorkHours_step s e hse, ih (s + 3600) e (by omega)]
      unfold workInstantCount
      have hn : (e - s + 3599) / 3600 = (e - (s + 3600) + 3599) / 3600 + 1 := by omega
      rw [hn, List.range_succ_eq_map]
      rw [List.filter_cons]
      have hshift :
          ((List.range ((e - (s + 3600) + 3599) / 3600)).map Nat.succ).filter
              (fun k => is_working_hour (s + 3600 * k))
            = ((List.range ((e - (s + 3600) + 3599) / 3600)).filter
                (fun k => is_working_hour (s + 3600 + 3600 * k))).map Nat.succ := by
        rw [List.filter_map]
        congr 1
        apply List.filter_congr
        intro k _
        simp only [Function.comp]
        congr 1
        omega
      simp only [Nat.mul_zero, Nat.add_zero]
      rw [hshift]
      by_cases hwv : is_working_hour s = true
      · simp [hwv, List.length_map, Nat.add_comm]
      · simp [hwv, List.length_map]
    · have he : e ≤ s := by omega
      rw [calculateWorkHours_of_le s e he]
      unfold workInstantCount
      have hz : (e - s + 3599) / 3600 = 0 := by omega
      rw [hz]
      simp

theorem is_working_instant_spec_eq (t : Nat) :
    is_working_instant_spec t = is_working_hour t := by
  unfold is_working_instant_spec is_working_hour WORK_DAYS WORK_HOURS_START WORK_HOURS_END
  have h7 : weekday t < 7 := Nat.mod_lt _ (by norm_num)
  by_cases h5 : 5 ≤ weekday t
  · have : weekday t = 5 ∨ weekday t = 6 := by omega
    rcases this with h | h <;> simp [h]
  · have : weekday t = 0 ∨ weekday t = 1 ∨ weekday t = 2 ∨ weekday t = 3 ∨ weekday t = 4 := by
      omega
    by_cases hlow : hourOfDay t < 9
    · rcases this with h | h | h | h | h <;> simp [h, hlow]
    · by_cases hhigh : 18 ≤ hourOfDay t
      · rcases this with h | h | h | h | h <;> simp [h, hlow, hhigh]
      · rcases this with h | h | h | h | h <;> simp [h, hlow, hhigh] <;> omega

theorem not_working_of_ne_true (t : Nat) (h : ¬ is_working_hour t = true) :
    is_working_hour t = false := by
  revert h
  cases is_working_hour t <;> simp

theorem gap_lt_of_not_working (c : Nat)
    (hfalse : is_working_hour (c + 3600) = false) :
    (gapToWorkSpec (c + 3600)).1 < (gapToWorkSpec c).1 := by
  have hpos : 1 ≤ (gapToWorkSpec c).1 := by
    rcases Nat.eq_zero_or_pos (gapToWorkSpec c).1 with h0 | h1
    · have hwork := (gapToWorkSpec c).2.1
      rw [h0] at hwork
      norm_num at hwork
      rw [hfalse] at hwork
      exact absurd hwork (by simp)
    · exact h1
  by_contra hge
  push_neg at hge
  have hmin := (gapToWorkSpec (c + 3600)).2.2.2
      ((gapToWorkSpec c).1 - 1) (by omega)
  have harith : c + 3600 + 3600 * (((gapToWorkSpec c).1 - 1) + 1)
      = c + 3600 * ((gapToWorkSpec c).1 + 1) := by omega
  rw [harith] at hmin
  have hwork := (gapToWorkSpec c).2.1
  rw [hmin] at hwork
  exact absurd hwork (by simp)

theorem calcWork_dueDateLoop :
    ∀ (c : Nat) (r : Int), 0 < r →
      calculateWorkHours c (dueDateLoop c r)
        = (r.toNat - 1) + (if is_working_hour c then 1 else 0) := by
  intro c r
  induction c, r using dueDateLoop.induct with
  | case1 c r h =>
    intro hr
    exact absurd hr (by omega)
  | case2 c r h hw ih =>
    intro hr
    rw [dueDateLoop]
    simp [h, hw]
    by_cases hr1 : r - 1 ≤ 0
    · have hstop : dueDateLoop (c + 3600) (r - 1) = c + 3600 := by
        rw [dueDateLoop]
        simp [hr1]
      rw [hstop]
      rw [calculateWorkHours_step c (c + 3600) (by omega)]
      rw [calculateWorkHours_of_le (c + 3600) (c + 3600) le_rfl]
      have hone : r.toNat = 1 := by omega
      rw [hone]
      cases is_working_hour c <;> simp
    · have ih2 := ih (by omega)
      have hge := dueDateLoop_ge (c + 3600) (r - 1)
      have hgt : c < dueDateLoop (c + 3600) (r - 1) := by omega
      rw [calculateWorkHours_step c _ hgt, ih2]
      rw [hw]
      have htn : (r - 1).toNat = r.toNat - 1 := by omega
      rw [htn]
      have h2 : 2 ≤ r.toNat := by omega
      cases is_working_hour c <;> simp <;> omega
  | case3 c r h hw ih =>
    intro hr
    rw [dueDateLoop]
    simp [h, hw]
    have ih2 := ih hr
    have hge := dueDateLoop_ge (c + 3600) r
    have hgt : c < dueDateLoop (c + 3600) r := by omega
    rw [calculateWorkHours_step c _ hgt, ih2]
    rw [not_working_of_ne_true (c + 3600) hw]
    cases is_working_hour c <;> (simp; try omega)

theorem dueDateFuel_eq :
    ∀ (fuel : Nat) (c : Nat) (r : Int),
      r.toNat * 177 + (gapToWorkSpec c).1 < fuel →
      dueDateFuel fuel c r = some (dueDateLoop c r) := by
  intro fuel
  induction fuel with
  | zero =>
    intro c r h
    exact absurd h (by omega)
  | succ n ih =>
    intro c r h
    by_cases hr : r ≤ 0
    · rw [dueDateFuel]
      rw [dueDateLoop]
      simp [hr]
    · by_cases hw : is_working_hour (c + 3600) = true
      · rw [dueDateFuel, dueDateLoop]
        simp only [hr, hw, if_neg, if_pos, dif_neg, dif_pos, not_false_iff]
        apply ih
        have h176 := (gapToWorkSpec (c + 3600)).2.2.1
        omega
      · rw [dueDateFuel, dueDateLoop]
        simp only [hr, hw, if_neg, if_pos, dif_neg, dif_pos, not_false_iff]
        apply ih
        have hlt := gap_lt_of_not_working c (not_working_of_ne_true (c + 3600) hw)
        omega

/-- Claim C1 (counterexample): the round-trip is NOT exact for every start.
For start = Monday 08:00 (28800 s) and sla_hours = 1, the due date is Monday
09:00 (32400 s), but feeding it back into the work-hours computation yields
0, not 1: the elapsed count inspects the instants start, start+1h, ... while
the due-date loop inspects start+1h, start+2h, ..., so a non-working start
instant loses one hour. -/
theorem c1_roundtrip_counterexample :
    calculate_due_date 28800 1 false = 32400 ∧
    calculateWorkHours 28800 (calculate_due_date 28800 1 false) = 0 ∧
    calculateWorkHours 28800 (calculate_due_date 28800 1 false) ≠ 1 := by
  have hfe := dueDateFuel_eq 354 28800 1
    (by have := (gapToWorkSpec 28800).2.2.1; omega)
  have hval : dueDateFuel 354 28800 1 = some 32400 := by rfl
  have hloop : dueDateLoop 28800 1 = 32400 := Option.some.inj (hfe.symm.trans hval)
  have hdue : calculate_due_date 28800 1 false = 32400 := by
    unfold calculate_due_date
    simpa using hloop
  refine ⟨hdue, ?_, ?_⟩
  · rw [hdue, calculateWorkHours_eq_count 3600 28800 32400 (by omega)]
    decide
  · rw [hdue, calculateWorkHours_eq_count 3600 28800 32400 (by omega)]
    decide

/-- Claim C1 (amended): for every start timestamp and positive sla_hours,
feeding calculate_due_date(start, sla_hours, critical = false) back into the
elapsed work-hours computation returns exactly sla_hours when start itself is
a working hour, and sla_hours - 1 otherwise. -/
theorem c1_roundtrip_amended (start sla : Nat) (h : 0 < sla) :
    calculateWorkHours start (calculate_due_date start sla false)
      = (sla - 1) + (if is_working_hour start then 1 else 0) := by
  unfold calculate_due_date
  simp only [Bool.false_eq_true, if_false]
  have hc := calcWork_dueDateLoop start (sla : Int) (by exact_mod_cast h)
  rw [hc]
  have ht : ((sla : Nat) : Int).toNat = sla := by omega
  rw [ht]

/-- Witness for c1_roundtrip_amended at start = Monday 09:00, sla = 1. -/
theorem c1_roundtrip_amended_witness :
    0 < 1 ∧ calculateWorkHours 32400 (calculate_due_date 32400 1 false)
      = (1 - 1) + (if is_working_hour 32400 then 1 else 0) :=
  ⟨Nat.zero_lt_one, c1_roundtrip_amended 32400 1 (by decide)⟩

/-- Claim C2 (counterexample): a ticket sitting in the final status 3 (whose
next_statuses is absent) can be moved to status 2 by change_status: the call
succeeds and updates the ticket's status, because the transition guard only
consults the next_statuses allow-list (absent/empty means permit all) and
never the is_final flag. -/
theorem c2_terminal_counterexample :
    (c2Env.statuses 3).map Status.is_final = some true ∧
    (c2Env.statuses 3).bind Status.next_statuses = none ∧
    (c2Env.requests 10).map Request.status_id = some (some 3) ∧
    resultOk (change_status c2Env 10 2 none 7 0) = true ∧
    (change_status c2Env 10 2 none 7 0).toOption.map (fun pr => pr.1.status_id)
      = some (some 2) :=
  ⟨rfl, rfl, rfl, rfl, rfl⟩

/-- Claim C2 (amended): a transition out of a final status fails with the
transition-guard violation precisely when that status's next_statuses
allow-list is a nonempty list that does not contain the target; the is_final
flag itself is never consulted, and an absent or empty allow-list lets the
transition through. -/
theorem c2_terminal_amended (env : Env) (request_id : Nat) (req : Request)
    (old_id : Nat) (s : Status) (l : List Nat) (new_id : Nat)
    (comment : Option String) (changed_by now : Nat)
    (hreq : env.requests request_id = some req)
    (hsid : req.status_id = some old_id)
    (hs : env.statuses old_id = some s)
    (hfin : s.is_final = true)
    (hl : s.next_statuses = some l)
    (hne : l ≠ [])
    (hnot : l.contains new_id = false) :
    change_status env request_id new_id comment changed_by now
      = .error "ValueError: cannot leave current status" := by
  unfold change_status
  rw [hreq]
  have hemp : l.isEmpty = false := by
    cases l with
    | nil => exact absurd rfl hne
    | cons a t => rfl
  simp only [hsid, hs, Status.can_transition_to, hl, hemp]
  simp
  intro hmem
  have hcontra : l.contains new_id = true := by
    simpa using hmem
  rw [hcontra] at hnot
  exact absurd hnot (by simp)

/-- Witness for c2_terminal_amended: final status 3 configured with
next_statuses = [4]; a transition to status 2 is refused. -/
theorem c2_terminal_amended_witness :
    c2AmEnv.requests 10 = some (mkRequest (some 3) "medium" (some 0) none) ∧
    (mkRequest (some 3) "medium" (some 0) none).status_id = some 3 ∧
    c2AmEnv.statuses 3 = some { mkStatus 3 "resolved" true with next_statuses := some [4] } ∧
    ({ mkStatus 3 "resolved" true with next_statuses := some [4] } : Status).is_final = true ∧
    ([4] : List Nat) ≠ [] ∧
    ([4] : List Nat).contains 2 = false ∧
    change_status c2AmEnv 10 2 none 7 0
      = .error "ValueError: cannot leave current status" :=
  ⟨rfl, rfl, rfl, rfl, by decide, rfl,
    c2_terminal_amended c2AmEnv 10 (mkRequest (some 3) "medium" (some 0) none) 3
      { mkStatus 3 "resolved" true with next_statuses := some [4] } [4] 2 none 7 0
      rfl rfl rfl rfl rfl (by decide) rfl⟩

/-- Claim C3: for start < end, the non-critical elapsed-hours computation
equals the number of hour-step instants start + k hours that fall before end,
whose weekday is in the configured working-weekday set and whose hour-of-day
lies in [work_start_hour, work_end_hour) (the spec-side calendar predicate). -/
theorem c3_work_hours_matches_calendar_count (start endT : Nat) (h : start < endT) :
    calculateWorkHours start endT
      = ((List.range ((endT - start + 3599) / 3600)).filter
          (fun k => decide (start + 3600 * k < endT)
            && is_working_instant_spec (start + 3600 * k))).length := by
  rw [calculateWorkHours_eq_count (endT - start) start endT le_rfl]
  unfold workInstantCount
  apply congrArg List.length
  apply List.filter_congr
  intro k hk
  have hk2 := List.mem_range.mp hk
  have hlt : start + 3600 * k < endT := by omega
  rw [is_working_instant_spec_eq]
  simp [hlt]

/-- Witness for c3_work_hours_matches_calendar_count on Monday 08:00-10:00. -/
theorem c3_work_hours_matches_calendar_count_witness :
    28800 < 36000 ∧ calculateWorkHours 28800 36000
      = ((List.range ((36000 - 28800 + 3599) / 3600)).filter
          (fun k => decide (28800 + 3600 * k < 36000)
            && is_working_instant_spec (28800 + 3600 * k))).length :=
  ⟨by decide, c3_work_hours_matches_calendar_count 28800 36000 (by decide)⟩

/-- Claim C4: with the critical (24/7) flag, the elapsed-hours computation
returns the raw wall-clock difference in hours whenever end > start and 0
whenever end <= start, never consulting the business calendar. -/
theorem c4_critical_wall_clock (start endT : Nat) :
    calculate_elapsed_hours start endT true
      = if start < endT then ((endT : ℚ) - (start : ℚ)) / 3600 else 0 := by
  unfold calculate_elapsed_hours
  by_cases h : endT ≤ start
  · simp [h, show ¬ start < endT by omega]
  · simp [h, show start < endT by omega]

/-- Claim C5 (counterexample): resolving via change_status stamps
actual_hours with the RAW wall-clock difference, not the business-hours
elapsed. Ticket created Monday 08:00 (28800 s), resolved (status 3) at Monday
09:00 (32400 s): actual_hours becomes 1, while the business-hours elapsed
between creation and resolution is 0. -/
theorem c5_actual_hours_counterexample :
    (change_status c5Env 10 3 none 7 32400).toOption.map (fun pr => pr.1.resolved_at)
        = some (some 32400) ∧
    (change_status c5Env 10 3 none 7 32400).toOption.map (fun pr => pr.1.actual_hours)
        = some (some 1) ∧
    calculateWorkHours 28800 32400 = 0 ∧
    ((calculateWorkHours 28800 32400 : Nat) : ℚ) ≠ (1 : ℚ) := by
  have hwh : calculateWorkHours 28800 32400 = 0 := by
    rw [calculateWorkHours_eq_count 3600 28800 32400 (by omega)]
    decide
  refine ⟨rfl, ?_, hwh, ?_⟩
  · show some (some (((32400 : ℚ) - (28800 : ℚ)) / 3600)) = some (some 1)
    norm_num
  · rw [hwh]
    norm_num

/-- Claim C5 (amended): whenever change_status moves a ticket into the
canonical resolved status 3 (with all guards passing and the status flagged
final), it stamps resolved_at with the current time and sets actual_hours to
the raw wall-clock hours (now - created_at) / 3600, i.e. the value of
calculate_resolution_time, not the business-hours elapsed. -/
theorem c5_resolution_stamp_amended (env : Env) (request_id : Nat) (req : Request)
    (old_id : Nat) (olds ns : Status) (u : User) (comment : Option String)
    (changed_by now cre : Nat)
    (hreq : env.requests request_id = some req)
    (hsid : req.status_id = some old_id)
    (holds : env.statuses old_id = some olds)
    (htrans : olds.can_transition_to 3 = true)
    (hns : env.statuses 3 = some ns)
    (hfin : ns.is_final = true)
    (huser : env.users changed_by = some u)
    (hrole : ns.is_allowed_for_role u.role = true)
    (hcre : req.created_at = some cre) :
    (change_status env request_id 3 comment changed_by now).toOption.map
        (fun pr => (pr.1.resolved_at, pr.1.actual_hours))
      = some (some now, some (((now : ℚ) - (cre : ℚ)) / 3600)) := by
  unfold change_status
  rw [hreq]
  simp only [hsid, holds, htrans, hns, huser, hrole]
  simp [applyStatusChange, Request.calculate_resolution_time, hfin, hcre,
    Except.toOption]

/-- Witness for c5_resolution_stamp_amended on the concrete environment. -/
theorem c5_resolution_stamp_amended_witness :
    c5Env.requests 10 = some (mkRequest (some 2) "medium" (some 28800) none) ∧
    (mkRequest (some 2) "medium" (some 28800) none).status_id = some 2 ∧
    c5Env.statuses 2 = some (mkStatus 2 "in_progress" false) ∧
    (mkStatus 2 "in_progress" false).can_transition_to 3 = true ∧
    c5Env.statuses 3 = some (mkStatus 3 "resolved" true) ∧
    (mkStatus 3 "resolved" true).is_final = true ∧
    c5Env.users 7 = some sampleUser ∧
    (mkStatus 3 "resolved" true).is_allowed_for_role sampleUser.role = true ∧
    (mkRequest (some 2) "medium" (some 28800) none).created_at = some 28800 ∧
    (change_status c5Env 10 3 none 7 36000).toOption.map
        (fun pr => (pr.1.resolved_at, pr.1.actual_hours))
      = some (some 36000, some (((36000 : ℚ) - (28800 : ℚ)) / 3600)) :=
  ⟨rfl, rfl, rfl, rfl, rfl, rfl, rfl, rfl, rfl,
    c5_resolution_stamp_amended c5Env 10 (mkRequest (some 2) "medium" (some 28800) none)
      2 (mkStatus 2 "in_progress" false) (mkStatus 3 "resolved" true) sampleUser none
      7 36000 28800 rfl rfl rfl rfl rfl rfl rfl rfl rfl⟩

/-- Claim C6 (counterexample): the target status 2 carries requires_comment,
yet change_status with an absent comment succeeds and updates the status: no
comment guard exists in the code. -/
theorem c6_requires_comment_counterexample :
    (c6Env.statuses 2).map Status.requires_comment = some true ∧
    resultOk (change_status c6Env 10 2 none 7 0) = true ∧
    (change_status c6Env 10 2 none 7 0).toOption.map (fun pr => pr.1.status_id)
      = some (some 2) :=
  ⟨rfl, rfl, rfl⟩

/-- Claim C6 (amended): change_status never enforces requires_comment:
whether the call succeeds is entirely independent of the comment argument
(the comment is only copied into the history record). -/
theorem c6_comment_independent (env : Env) (request_id new_id changed_by now : Nat)
    (ca cb : Option String) :
    resultOk (change_status env request_id new_id ca changed_by now)
      = resultOk (change_status env request_id new_id cb changed_by now) := by
  unfold change_status
  cases env.requests request_id with
  | none => rfl
  | some req =>
    dsimp only
    split_ifs with h1
    · rfl
    · cases env.statuses new_id with
      | none => rfl
      | some ns =>
        cases env.users changed_by with
        | none => rfl
        | some u =>
          dsimp only
          split_ifs with h2
          · rfl
          · rfl

/-- Claim C7: when created_at is absent, calculate_sla does not raise and
returns the fallback report (compliant, zero elapsed, default limit 24); in
the embedding calculate_sla is a total function, so no exception escapes for
any request. -/
theorem c7_missing_created_fallback (r : Request) (now : Nat)
    (h : r.created_at = none) : calculate_sla r now = slaFallbackReport := by
  unfold calculate_sla calculate_sla_body
  rw [h]

/-- Witness for c7_missing_created_fallback on a request lacking created_at. -/
theorem c7_missing_created_fallback_witness :
    (mkRequest (some 1) "medium" none none).created_at = none ∧
    calculate_sla (mkRequest (some 1) "medium" none none) 5000 = slaFallbackReport :=
  ⟨rfl, c7_missing_created_fallback (mkRequest (some 1) "medium" none none) 5000 rfl⟩

/-- Claim C8: for a finished ticket with both resolved_at and created_at set,
check_sla_compliance returns the same boolean no matter what the current time
is: the finished branch measures creation-to-resolution only. -/
theorem c8_compliance_time_independent (r : Request) (now1 now2 : Nat)
    (hf : r.is_finished = true) (hres : r.resolved_at.isSome = true)
    (hcre : r.created_at.isSome = true) :
    check_sla_compliance r now1 = check_sla_compliance r now2 := by
  unfold check_sla_compliance
  rw [hf]
  obtain ⟨res, hres2⟩ := Option.isSome_iff_exists.mp hres
  obtain ⟨cre, hcre2⟩ := Option.isSome_iff_exists.mp hcre
  rw [hres2, hcre2]
  simp

/-- Witness for c8_compliance_time_independent: a resolved ticket queried at
time 0 and a time far in the future. -/
theorem c8_compliance_time_independent_witness :
    (mkRequest (some 3) "medium" (some 28800) (some 32400)).is_finished = true ∧
    (mkRequest (some 3) "medium" (some 28800) (some 32400)).resolved_at.isSome = true ∧
    (mkRequest (some 3) "medium" (some 28800) (some 32400)).created_at.isSome = true ∧
    check_sla_compliance (mkRequest (some 3) "medium" (some 28800) (some 32400)) 0
      = check_sla_compliance (mkRequest (some 3) "medium" (some 28800) (some 32400)) 999999999 :=
  ⟨rfl, rfl, rfl,
    c8_compliance_time_independent (mkRequest (some 3) "medium" (some 28800) (some 32400))
      0 999999999 rfl rfl rfl⟩

/-- Claim C9 (counterexample): find_by_request returns the history NEWEST
first (ORDER BY changed_at DESC), not ascending: on a table with entries at
times 0 and 100 for ticket 1, the entry at 100 comes first. -/
theorem c9_history_order_counterexample :
    find_by_request c9Db 1
        = [{ request_id := 1, action := "status_change", changed_at := 100 },
           { request_id := 1, action := "create", changed_at := 0 }] ∧
    ascendingByChangedAt (find_by_request c9Db 1) = false :=
  ⟨rfl, rfl⟩

/-- Claim C9 (amended): for every history table and ticket id,
find_by_request returns that ticket's entries ordered by timestamp
DESCENDING (newest entry first). -/
theorem c9_history_descending (db : List HistoryRow) (request_id : Nat) :
    List.Sorted (fun a b => b.changed_at ≤ a.changed_at)
      (find_by_request db request_id) := by
  unfold find_by_request orderByChangedAtDesc
  haveI : IsTotal HistoryRow (fun a b => b.changed_at ≤ a.changed_at) :=
    ⟨fun a b => Nat.le_total b.changed_at a.changed_at⟩
  haveI : IsTrans HistoryRow (fun a b => b.changed_at ≤ a.changed_at) :=
    ⟨fun a b c h1 h2 => Nat.le_trans h2 h1⟩
  exact List.sorted_insertionSort _ _

/-- Claim C10: the hour-stepping loop of calculate_due_date terminates for
every start timestamp and every integer sla_hours: the fuel-indexed twin of
the loop reaches the exit within 177 * sla_hours + 177 one-hour steps (a
working hour occurs in every 177-hour window), returning the value of the
total loop function; and for critical = false the due-date function is that
loop. -/
theorem c10_due_date_loop_terminates (start : Nat) (sla : Int) :
    dueDateFuel (sla.toNat * 177 + 177) start sla = some (dueDateLoop start sla) ∧
    ∀ n : Nat, calculate_due_date start n false = dueDateLoop start (n : Int) := by
  constructor
  · apply dueDateFuel_eq
    have := (gapToWorkSpec start).2.2.1
    omega
  · intro n
    unfold calculate_due_date
    simp

end Helpdesk
